import Mathlib

/-!
Shallow embedding of the feature-flag HTTP service in src/app.py.

The service is a Flask application over a PostgreSQL table
  flags(id SERIAL, name VARCHAR(100) UNIQUE NOT NULL,
        is_enabled BOOLEAN NOT NULL DEFAULT false, created_at TIMESTAMP).
Request bodies are JSON values; handlers validate the body in Python,
run one SQL statement over a fresh connection, and translate outcomes
into HTTP responses.

Modelling choices:
 - JSON values are the inductive type Json below; the result of
   request.get_json() is an Option Json, none standing for Python None
   (absent or null body).
 - Python operations that can raise (membership tests and subscripts on
   arbitrary values) return Except String with the exception class name;
   an exception escaping a handler outside its try block is rendered as
   a framework-level 500 response.
 - The database is DbState: whether the flags table exists, plus the
   rows in insertion order.  The single SQL statement of each handler is
   modelled by a sql* function; the unique constraint on name raises
   integrityError, a missing table or other engine-side problem raises
   otherError.  Connection acquisition (credentials, network) is the
   ConnResult parameter of each handler.
 - ORDER BY name is modelled by an insertion sort under byte-wise
   lexicographic comparison of names (the C collation).
-/

namespace FlagsApp

/-- JSON values as delivered by request.get_json(). -/
inductive Json where
  | null
  | bool (b : Bool)
  | num (n : Int)
  | str (s : String)
  | arr (elems : List Json)
  | obj (entries : List (String × Json))

/-- Python truthiness of a JSON-derived value: None, False, 0, empty
string, empty list and empty dict are falsy, everything else truthy. -/
def pyTruthy : Json → Bool
  | Json.null => false
  | Json.bool b => b
  | Json.num n => n != 0
  | Json.str s => s != ""
  | Json.arr elems => !elems.isEmpty
  | Json.obj entries => !entries.isEmpty

/-- Key lookup in a JSON object (Python dict from json.loads, so keys
are unique and find? picks the binding). -/
def pyLookup (entries : List (String × Json)) (key : String) : Option Json :=
  (entries.find? (fun kv => kv.1 == key)).map (fun kv => kv.2)

/-- Substring test on character lists, modelling the Python operator
in on two strings. -/
def hasSubstr (pat : List Char) : List Char → Bool
  | [] => pat.isEmpty
  | c :: cs => pat.isPrefixOf (c :: cs) || hasSubstr pat cs

/-- Python membership test key in j for a string key: key lookup on a
dict, substring test on a string, element equality on a list; on None,
booleans and numbers Python raises TypeError. -/
def pyContains (j : Json) (key : String) : Except String Bool :=
  match j with
  | Json.obj entries => Except.ok (pyLookup entries key).isSome
  | Json.str s => Except.ok (hasSubstr key.data s.data)
  | Json.arr elems =>
      Except.ok (elems.any (fun e => match e with
        | Json.str t => t == key
        | _ => false))
  | _ => Except.error "TypeError"

/-- Python subscript j[key] for a string key: dict lookup (KeyError when
absent); strings and lists reject string subscripts with TypeError, as
do None, booleans and numbers. -/
def pyIndex (j : Json) (key : String) : Except String Json :=
  match j with
  | Json.obj entries =>
      match pyLookup entries key with
      | some v => Except.ok v
      | none => Except.error "KeyError"
  | _ => Except.error "TypeError"

/-- Python j.get(key, default): only dicts have the method. -/
def pyGet (j : Json) (key : String) (default : Json) : Except String Json :=
  match j with
  | Json.obj entries => Except.ok ((pyLookup entries key).getD default)
  | _ => Except.error "AttributeError"

/-- Python isinstance(v, bool) on a JSON-derived value. -/
def isBool : Json → Bool
  | Json.bool _ => true
  | _ => false

/-- Rendering of a JSON-derived Python value inside an f-string, as in
the 409 and 201 messages of create_flag (src/app.py lines 102, 111).
Only the string case is exercised by the API contract; the other cases
follow the str() conventions of Python, with container renderings
abbreviated. -/
def jsonToPyStr : Json → String
  | Json.str s => s
  | Json.bool true => "True"
  | Json.bool false => "False"
  | Json.null => "None"
  | Json.num n => toString n
  | Json.arr _ => "[...]"
  | Json.obj _ => "\x7b...\x7d"

/-- Byte-wise lexicographic comparison of character lists, the order
behind ORDER BY name under the C collation. -/
def lexLe : List Char → List Char → Bool
  | [], _ => true
  | _ :: _, [] => false
  | a :: as, b :: bs =>
      if a.toNat < b.toNat then true
      else if a.toNat = b.toNat then lexLe as bs
      else false

/-- Lexicographic order on strings used for ORDER BY name. -/
def strLe (a b : String) : Bool := lexLe a.data b.data

/-- One row of the flags table as exposed by the API (the surrogate id
and created_at columns are never read by the handlers). -/
structure Flag where
  name : String
  is_enabled : Bool
deriving DecidableEq, Repr

/-- State of the database: whether the flags table has been created
(bootstrap, src/app.py lines 57-77) and its rows in insertion order. -/
structure DbState where
  tableExists : Bool
  flags : List Flag
deriving DecidableEq, Repr

/-- Outcome of executing one SQL statement: success, a
psycopg2.IntegrityError (constraint violation), or any other engine
exception with its message. -/
inductive SqlResult (α : Type) where
  | ok (a : α)
  | integrityError
  | otherError (msg : String)

/-- Outcome of get_db_connection() as seen from a request handler:
either a live connection or an exception (RuntimeError from credential
resolution, psycopg2.OperationalError from the network) with its
message. -/
inductive ConnResult where
  | ok
  | failure (msg : String)

/-- Insertion of a flag into a name-sorted list (helper for the model
of ORDER BY name). -/
def insertSorted (f : Flag) : List Flag → List Flag
  | [] => [f]
  | g :: gs => if strLe f.name g.name then f :: g :: gs else g :: insertSorted f gs

/-- Name-sorted presentation of the rows, modelling ORDER BY name. -/
def sortFlags : List Flag → List Flag
  | [] => []
  | f :: fs => insertSorted f (sortFlags fs)

/-- Model of INSERT INTO flags (name, is_enabled) VALUES (%s, %s)
(src/app.py line 99).  A missing table is an engine error; a name
longer than VARCHAR(100) is an engine error; a duplicate name violates
the unique constraint and raises IntegrityError.  The engine-side
adaptation of ill-typed parameters (non-string name or non-boolean
is_enabled) belongs to the out-of-scope database engine and is modelled
as an unspecified engine error. -/
def sqlInsert (s : DbState) (nameV enabledV : Json) : SqlResult DbState :=
  if !s.tableExists then SqlResult.otherError "relation flags does not exist"
  else match nameV, enabledV with
    | Json.str n, Json.bool b =>
        if n.length > 100 then
          SqlResult.otherError "value too long for type character varying(100)"
        else if s.flags.any (fun f => f.name == n) then
          SqlResult.integrityError
        else
          SqlResult.ok ⟨s.tableExists, s.flags ++ [⟨n, b⟩]⟩
    | _, _ => SqlResult.otherError "parameter adaptation outside model"

/-- Model of SELECT name, is_enabled FROM flags ORDER BY name
(src/app.py line 118) with fetchall under a dict cursor. -/
def sqlSelectAll (s : DbState) : SqlResult (List (String × Bool)) :=
  if !s.tableExists then SqlResult.otherError "relation flags does not exist"
  else SqlResult.ok ((sortFlags s.flags).map (fun f => (f.name, f.is_enabled)))

/-- Model of SELECT name, is_enabled FROM flags WHERE name = %s
(src/app.py line 135) with fetchone. -/
def sqlSelectOne (s : DbState) (name : String) : SqlResult (Option Flag) :=
  if !s.tableExists then SqlResult.otherError "relation flags does not exist"
  else SqlResult.ok (s.flags.find? (fun f => f.name == name))

/-- Model of UPDATE flags SET is_enabled = %s WHERE name = %s
(src/app.py line 160): the updated state and the statement rowcount. -/
def sqlUpdate (s : DbState) (name : String) (b : Bool) : SqlResult (DbState × Nat) :=
  if !s.tableExists then SqlResult.otherError "relation flags does not exist"
  else SqlResult.ok
    (⟨s.tableExists, s.flags.map (fun f => if f.name == name then ⟨f.name, b⟩ else f)⟩,
     (s.flags.filter (fun f => f.name == name)).length)

/-- JSON response bodies produced by the handlers. -/
inductive RespBody where
  | messageBody (m : String)
  | errorBody (m : String)
  | errorDetail (m : String) (details : String)
  | flagBody (name : String) (is_enabled : Bool)
  | flagList (l : List (String × Bool))
  | frameworkError (exc : String)
deriving DecidableEq, Repr

/-- An HTTP response: status code and JSON body.  frameworkError bodies
stand for the HTML 500 page Flask serves when an exception escapes a
handler. -/
structure Response where
  status : Nat
  body : RespBody
deriving DecidableEq, Repr

/-- Result of the body-validation prefix of create_flag (src/app.py
lines 89-94), before any database access: reject with 400, let a Python
exception escape, or proceed to the INSERT with the extracted name and
is_enabled values. -/
inductive CreateAction where
  | reject400
  | raiseExc (e : String)
  | insert (nameV enabledV : Json)

/-- Validation prefix of create_flag: if not data or name not in data
then 400; then name = data[subscript name] and
is_enabled = data.get(is_enabled, False). -/
def create_parse (data : Option Json) : CreateAction :=
  match data with
  | none => CreateAction.reject400
  | some j =>
    if !pyTruthy j then CreateAction.reject400
    else match pyContains j "name" with
      | Except.error e => CreateAction.raiseExc e
      | Except.ok false => CreateAction.reject400
      | Except.ok true =>
        match pyIndex j "name" with
        | Except.error e => CreateAction.raiseExc e
        | Except.ok nameV =>
          match pyGet j "is_enabled" (Json.bool false) with
          | Except.error e => CreateAction.raiseExc e
          | Except.ok enabledV => CreateAction.insert nameV enabledV

/-- POST /flags handler create_flag (src/app.py lines 87-111): validate
the body, open a connection, INSERT, map IntegrityError to 409 and any
other exception to 500 with details, 201 on success. -/
def create_flag (data : Option Json) (conn : ConnResult) (s : DbState) :
    Response × DbState :=
  match create_parse data with
  | CreateAction.reject400 =>
      (⟨400, RespBody.errorBody "O campo \x27name\x27 é obrigatório"⟩, s)
  | CreateAction.raiseExc e => (⟨500, RespBody.frameworkError e⟩, s)
  | CreateAction.insert nameV enabledV =>
    match conn with
    | ConnResult.failure msg =>
        (⟨500, RespBody.errorDetail "Erro interno no servidor ao criar a flag" msg⟩, s)
    | ConnResult.ok =>
      match sqlInsert s nameV enabledV with
      | SqlResult.integrityError =>
          (⟨409, RespBody.errorBody
            ("A flag \x27" ++ jsonToPyStr nameV ++ "\x27 já existe")⟩, s)
      | SqlResult.otherError msg =>
          (⟨500, RespBody.errorDetail "Erro interno no servidor ao criar a flag" msg⟩, s)
      | SqlResult.ok s2 =>
          (⟨201, RespBody.messageBody
            ("Flag \x27" ++ jsonToPyStr nameV ++ "\x27 criada com sucesso")⟩, s2)

/-- GET /flags handler get_flags (src/app.py lines 113-128): SELECT all
rows ordered by name, 500 with details on any exception. -/
def get_flags (conn : ConnResult) (s : DbState) : Response :=
  match conn with
  | ConnResult.failure msg =>
      ⟨500, RespBody.errorDetail "Erro interno no servidor ao buscar as flags" msg⟩
  | ConnResult.ok =>
    match sqlSelectAll s with
    | SqlResult.ok rows => ⟨200, RespBody.flagList rows⟩
    | SqlResult.integrityError =>
        ⟨500, RespBody.errorDetail "Erro interno no servidor ao buscar as flags"
          "IntegrityError"⟩
    | SqlResult.otherError msg =>
        ⟨500, RespBody.errorDetail "Erro interno no servidor ao buscar as flags" msg⟩

/-- GET /flags/name handler get_flag_status (src/app.py lines 130-147):
SELECT by name, 200 with the row when found, 404 otherwise, 500 with
details on any exception. -/
def get_flag_status (name : String) (conn : ConnResult) (s : DbState) : Response :=
  match conn with
  | ConnResult.failure msg =>
      ⟨500, RespBody.errorDetail "Erro interno no servidor ao buscar a flag" msg⟩
  | ConnResult.ok =>
    match sqlSelectOne s name with
    | SqlResult.ok (some f) => ⟨200, RespBody.flagBody f.name f.is_enabled⟩
    | SqlResult.ok none => ⟨404, RespBody.errorBody "Flag não encontrada"⟩
    | SqlResult.integrityError =>
        ⟨500, RespBody.errorDetail "Erro interno no servidor ao buscar a flag"
          "IntegrityError"⟩
    | SqlResult.otherError msg =>
        ⟨500, RespBody.errorDetail "Erro interno no servidor ao buscar a flag" msg⟩

/-- Result of the body-validation prefix of update_flag (src/app.py
lines 151-155): reject with 400, let a Python exception escape, or
proceed to the UPDATE with the extracted boolean. -/
inductive UpdateAction where
  | reject400
  | raiseExc (e : String)
  | doUpdate (b : Bool)

/-- Validation prefix of update_flag: if data is None or is_enabled not
in data or not isinstance(data[subscript is_enabled], bool) then 400. -/
def update_parse (data : Option Json) : UpdateAction :=
  match data with
  | none => UpdateAction.reject400
  | some j =>
    match pyContains j "is_enabled" with
    | Except.error e => UpdateAction.raiseExc e
    | Except.ok false => UpdateAction.reject400
    | Except.ok true =>
      match pyIndex j "is_enabled" with
      | Except.error e => UpdateAction.raiseExc e
      | Except.ok v =>
        match v with
        | Json.bool b => UpdateAction.doUpdate b
        | _ => UpdateAction.reject400

/-- PUT /flags/name handler update_flag (src/app.py lines 149-174):
validate the body, UPDATE, 404 when the rowcount is zero, 500 with
details on any exception, 200 on success. -/
def update_flag (name : String) (data : Option Json) (conn : ConnResult)
    (s : DbState) : Response × DbState :=
  match update_parse data with
  | UpdateAction.reject400 =>
      (⟨400, RespBody.errorBody "O campo \x27is_enabled\x27 (booleano) é obrigatório"⟩, s)
  | UpdateAction.raiseExc e => (⟨500, RespBody.frameworkError e⟩, s)
  | UpdateAction.doUpdate b =>
    match conn with
    | ConnResult.failure msg =>
        (⟨500, RespBody.errorDetail "Erro interno no servidor ao atualizar a flag" msg⟩, s)
    | ConnResult.ok =>
      match sqlUpdate s name b with
      | SqlResult.ok (s2, rowcount) =>
        if rowcount == 0 then
          (⟨404, RespBody.errorBody "Flag não encontrada"⟩, s)
        else
          (⟨200, RespBody.messageBody ("Flag \x27" ++ name ++ "\x27 atualizada")⟩, s2)
      | SqlResult.integrityError =>
          (⟨500, RespBody.errorDetail "Erro interno no servidor ao atualizar a flag"
            "IntegrityError"⟩, s)
      | SqlResult.otherError msg =>
          (⟨500, RespBody.errorDetail "Erro interno no servidor ao atualizar a flag"
            msg⟩, s)

/-- Process environment slice read by the credential resolver
(src/app.py lines 30-40); os.getenv yields none for an unset
variable. -/
structure Env where
  DB_PASSWORD : Option String
  DB_PASSWORD_SSM_PARAM : Option String
  AWS_REGION : Option String
  AWS_DEFAULT_REGION : Option String

/-- Python truthiness of an os.getenv result: None and the empty string
are falsy. -/
def truthyOpt : Option String → Bool
  | none => false
  | some s => s != ""

/-- Python expression a or b for a getenv result a and a string b. -/
def strOrElse (a : Option String) (b : String) : String :=
  match a with
  | some s => if s == "" then b else s
  | none => b

/-- Region selection of resolve_db_password (src/app.py line 39):
AWS_REGION or AWS_DEFAULT_REGION or the fixed default sa-east-1. -/
def resolveRegion (env : Env) : String :=
  strOrElse env.AWS_REGION (strOrElse env.AWS_DEFAULT_REGION "sa-east-1")

/-- Credential resolver resolve_db_password (src/app.py lines 30-40).
The external secret-parameter store (get_ssm_parameter, an SSM
GetParameter call with decryption) is the parameter ssm, mapping a
parameter identifier and a region to the decrypted value. -/
def resolve_db_password (env : Env) (ssm : String → String → String) :
    Option String :=
  if truthyOpt env.DB_PASSWORD then env.DB_PASSWORD
  else if !truthyOpt env.DB_PASSWORD_SSM_PARAM then none
  else some (ssm (env.DB_PASSWORD_SSM_PARAM.getD "") (resolveRegion env))

/-- Connection builder get_db_connection (src/app.py lines 43-55):
raises RuntimeError when no password resolves, otherwise opens a
connection (the psycopg2.connect call itself is out of scope; the model
returns the resolved password handed to it). -/
def get_db_connection (env : Env) (ssm : String → String → String) :
    Except String String :=
  match resolve_db_password env ssm with
  | none =>
      Except.error
        "Senha do DB não resolvida. Defina DB_PASSWORD ou DB_PASSWORD_SSM_PARAM (+ AWS_REGION)."
  | some p =>
      if p == "" then
        Except.error
          "Senha do DB não resolvida. Defina DB_PASSWORD ou DB_PASSWORD_SSM_PARAM (+ AWS_REGION)."
      else Except.ok p

/-- Outcome logged by init_db (src/app.py lines 57-77): success, a
caught connection error, or a caught unexpected error. -/
inductive InitLog where
  | success
  | connectionError (msg : String)
  | unexpectedError (msg : String)
deriving DecidableEq, Repr

/-- Failure of the connection and statement attempt inside init_db:
psycopg2.OperationalError or any other exception. -/
inductive DbFailure where
  | operationalError (msg : String)
  | otherException (msg : String)
deriving DecidableEq, Repr

/-- Model of CREATE TABLE IF NOT EXISTS flags (src/app.py lines
62-69). -/
def createTableIfNotExists (s : DbState) : DbState :=
  if s.tableExists then s else ⟨true, s.flags⟩

/-- Schema bootstrap init_db (src/app.py lines 57-77): attempt a
connection and the CREATE TABLE IF NOT EXISTS statement; an
OperationalError is caught and logged, any other exception is caught
and logged, and in either case the function returns normally.  The
attempt parameter is the outcome of get_db_connection plus statement
execution. -/
def init_db (attempt : Except DbFailure Unit) (s : DbState) : DbState × InitLog :=
  match attempt with
  | Except.error (DbFailure.operationalError m) => (s, InitLog.connectionError m)
  | Except.error (DbFailure.otherException m) => (s, InitLog.unexpectedError m)
  | Except.ok _ => (createTableIfNotExists s, InitLog.success)

/-- Request body for the create operation with a given name and an
optional is_enabled value, as used by the testable properties of the
specification. -/
def mkCreateBody (n : String) (b : Option Bool) : Json :=
  Json.obj (("name", Json.str n) ::
    (match b with
     | some bb => [("is_enabled", Json.bool bb)]
     | none => []))

/-- Condition under which the specification predicts a 400 from the
update operation: body absent, or lacking an is_enabled field, or with
an is_enabled that is not strictly a boolean. -/
def updateBad : Option Json → Bool
  | none => true
  | some (Json.obj entries) =>
      match pyLookup entries "is_enabled" with
      | some (Json.bool _) => false
      | _ => true
  | some _ => true

/-! Helper lemmas about the lexicographic order and the sort model. -/

theorem lexLe_total : ∀ (as bs : List Char), lexLe as bs = true ∨ lexLe bs as = true := by
  intro as
  induction as with
  | nil => intro bs; left; simp [lexLe]
  | cons a as ih =>
    intro bs
    cases bs with
    | nil => right; simp [lexLe]
    | cons b bs =>
      simp only [lexLe]
      rcases Nat.lt_trichotomy a.toNat b.toNat with h | h | h
      · left; simp [h]
      · rcases ih bs with hh | hh
        · left; simp [h, hh]
        · right; simp [h.symm, hh]
      · right; simp [h]

theorem lexLe_trans : ∀ (as bs cs : List Char), lexLe as bs = true →
    lexLe bs cs = true → lexLe as cs = true := by
  intro as
  induction as with
  | nil => intro bs cs _ _; simp [lexLe]
  | cons a as ih =>
    intro bs cs h1 h2
    cases bs with
    | nil => simp [lexLe] at h1
    | cons b bs =>
      cases cs with
      | nil => simp [lexLe] at h2
      | cons c cs =>
        simp only [lexLe] at h1 h2 ⊢
        split at h1
        · split at h2
          · have hac : a.toNat < c.toNat := by omega
            simp [hac]
          · split at h2
            · have hac : a.toNat < c.toNat := by omega
              simp [hac]
            · exact Bool.noConfusion h2
        · split at h1
          · split at h2
            · have hac : a.toNat < c.toNat := by omega
              simp [hac]
            · split at h2
              · have hac : a.toNat = c.toNat := by omega
                simp only [hac, lt_self_iff_false, if_false, if_pos rfl, if_true]
                exact ih bs cs h1 h2
              · exact Bool.noConfusion h2
          · exact Bool.noConfusion h1

theorem strLe_total (a b : String) : strLe a b = true ∨ strLe b a = true :=
  lexLe_total a.data b.data

theorem strLe_trans (a b c : String) (h1 : strLe a b = true) (h2 : strLe b c = true) :
    strLe a c = true :=
  lexLe_trans a.data b.data c.data h1 h2

theorem insertSorted_perm (f : Flag) (l : List Flag) :
    List.Perm (insertSorted f l) (f :: l) := by
  induction l with
  | nil => simp [insertSorted]
  | cons g gs ih =>
    by_cases h : strLe f.name g.name = true
    · simp [insertSorted, h]
    · simp only [insertSorted, if_neg h]
      exact (List.Perm.cons g ih).trans (List.Perm.swap f g gs)

theorem sortFlags_perm (l : List Flag) : List.Perm (sortFlags l) l := by
  induction l with
  | nil => simp [sortFlags]
  | cons f fs ih =>
    exact (insertSorted_perm f (sortFlags fs)).trans (List.Perm.cons f ih)

theorem pairwise_insertSorted (f : Flag) (l : List Flag)
    (hl : List.Pairwise (fun g h => strLe g.name h.name = true) l) :
    List.Pairwise (fun g h => strLe g.name h.name = true) (insertSorted f l) := by
  induction l with
  | nil => simp [insertSorted]
  | cons g gs ih =>
    rcases List.pairwise_cons.1 hl with ⟨hg, hgs⟩
    by_cases h : strLe f.name g.name = true
    · simp only [insertSorted, if_pos h]
      refine List.pairwise_cons.2 ⟨?_, hl⟩
      intro x hx
      rcases List.mem_cons.1 hx with hx | hx
      · exact hx ▸ h
      · exact strLe_trans _ _ _ h (hg x hx)
    · simp only [insertSorted, if_neg h]
      refine List.pairwise_cons.2 ⟨?_, ih hgs⟩
      intro x hx
      have hx2 : x ∈ f :: gs := (insertSorted_perm f gs).mem_iff.1 hx
      rcases List.mem_cons.1 hx2 with hx2 | hx2
      · rcases strLe_total f.name g.name with ht | ht
        · exact absurd ht h
        · exact hx2 ▸ ht
      · exact hg x hx2

theorem pairwise_sortFlags (l : List Flag) :
    List.Pairwise (fun g h => strLe g.name h.name = true) (sortFlags l) := by
  induction l with
  | nil => simp [sortFlags]
  | cons f fs ih => exact pairwise_insertSorted f (sortFlags fs) ih

/-! Helper lemmas about the create path. -/

theorem create_parse_mkCreateBody (n : String) (b : Option Bool) :
    create_parse (some (mkCreateBody n b)) =
      CreateAction.insert (Json.str n) (Json.bool (b.getD false)) := by
  cases b <;> rfl

theorem create_flag_fresh (n : String) (b : Option Bool) (s : DbState)
    (htable : s.tableExists = true) (hlen : n.length ≤ 100)
    (hfresh : ∀ f ∈ s.flags, f.name ≠ n) :
    create_flag (some (mkCreateBody n b)) ConnResult.ok s =
      (⟨201, RespBody.messageBody ("Flag \x27" ++ n ++ "\x27 criada com sucesso")⟩,
       ⟨true, s.flags ++ [⟨n, b.getD false⟩]⟩) := by
  have hany : s.flags.any (fun f => f.name == n) = false := by
    rw [List.any_eq_false]
    intro f hf
    simp [hfresh f hf]
  have hnotlong : ¬ n.length > 100 := by omega
  simp [create_flag, create_parse_mkCreateBody, sqlInsert, htable, hnotlong, hany,
    jsonToPyStr]

/-- C1: for every valid name string, performing create(name, is_enabled)
and then get(name) returns the same name and the same is_enabled value,
with is_enabled equal to false when it was omitted from the create
request body.  Valid means the name fits the VARCHAR(100) column; the
create is performed on a store whose table exists and does not yet hold
the name (otherwise create itself rejects the request), over a healthy
connection. -/
theorem c1_create_then_get (n : String) (b : Option Bool) (s : DbState)
    (htable : s.tableExists = true) (hlen : n.length ≤ 100)
    (hfresh : ∀ f ∈ s.flags, f.name ≠ n) :
    (create_flag (some (mkCreateBody n b)) ConnResult.ok s).1.status = 201 ∧
    get_flag_status n ConnResult.ok
      (create_flag (some (mkCreateBody n b)) ConnResult.ok s).2 =
      ⟨200, RespBody.flagBody n (b.getD false)⟩ := by
  rw [create_flag_fresh n b s htable hlen hfresh]
  refine ⟨rfl, ?_⟩
  have hfind : s.flags.find? (fun f => f.name == n) = none :=
    List.find?_eq_none.2 (fun f hf => by simp [hfresh f hf])
  simp [get_flag_status, sqlSelectOne, List.find?_append, hfind, List.find?]

/-- Witness for C1 at a concrete input: a store holding one other flag,
the name x created with is_enabled omitted. -/
theorem c1_create_then_get_witness :
    (create_flag (some (mkCreateBody "x" none)) ConnResult.ok
      ⟨true, [⟨"other", true⟩]⟩).1.status = 201 ∧
    get_flag_status "x" ConnResult.ok
      (create_flag (some (mkCreateBody "x" none)) ConnResult.ok
        ⟨true, [⟨"other", true⟩]⟩).2 =
      ⟨200, RespBody.flagBody "x" false⟩ :=
  c1_create_then_get "x" none ⟨true, [⟨"other", true⟩]⟩ rfl (by decide)
    (by intro f hf; simp at hf; simp [hf])

/-- C2: the create operation returns 409 exactly when the given name
already exists in the store (the unique constraint on name raising
IntegrityError), and returns 500 with error detail on any other store
failure (a failed connection, or any other engine exception such as a
missing table); in particular, creating the same name twice yields 409
on the second attempt. -/
theorem c2_create_conflict (n : String) (b b2 : Option Bool) (s : DbState)
    (msg : String) :
    (s.tableExists = true → n.length ≤ 100 →
      ((create_flag (some (mkCreateBody n b)) ConnResult.ok s).1.status = 409 ↔
        ∃ f ∈ s.flags, f.name = n)) ∧
    (s.tableExists = true → n.length ≤ 100 → (∀ f ∈ s.flags, f.name ≠ n) →
      (create_flag (some (mkCreateBody n b2)) ConnResult.ok
        (create_flag (some (mkCreateBody n b)) ConnResult.ok s).2).1 =
        ⟨409, RespBody.errorBody ("A flag \x27" ++ n ++ "\x27 já existe")⟩) ∧
    ((create_flag (some (mkCreateBody n b)) (ConnResult.failure msg) s).1 =
      ⟨500, RespBody.errorDetail "Erro interno no servidor ao criar a flag" msg⟩) ∧
    (s.tableExists = false →
      (create_flag (some (mkCreateBody n b)) ConnResult.ok s).1 =
        ⟨500, RespBody.errorDetail "Erro interno no servidor ao criar a flag"
          "relation flags does not exist"⟩) := by
  refine ⟨?_, ?_, ?_, ?_⟩
  · intro htable hlen
    have hnotlong : ¬ n.length > 100 := by omega
    by_cases hany : s.flags.any (fun f => f.name == n) = true
    · constructor
      · intro _
        rcases List.any_eq_true.1 hany with ⟨f, hf, hfn⟩
        exact ⟨f, hf, beq_iff_eq.1 hfn⟩
      · intro _
        simp [create_flag, create_parse_mkCreateBody, sqlInsert, htable, hnotlong, hany]
    · have hany2 : s.flags.any (fun f => f.name == n) = false := by
        cases hq : s.flags.any (fun f => f.name == n)
        · rfl
        · exact absurd hq hany
      constructor
      · intro h409
        exfalso
        simp [create_flag, create_parse_mkCreateBody, sqlInsert, htable, hnotlong,
          hany2] at h409
      · rintro ⟨f, hf, hfn⟩
        have hcontra : s.flags.any (fun f => f.name == n) = true :=
          List.any_eq_true.2 ⟨f, hf, by simp [hfn]⟩
        exact absurd hcontra hany
  · intro htable hlen hfresh
    rw [create_flag_fresh n b s htable hlen hfresh]
    have hany : (s.flags ++ [⟨n, b.getD false⟩] : List Flag).any
        (fun f => f.name == n) = true := by
      simp [List.any_append]
    have hnotlong : ¬ n.length > 100 := by omega
    simp [create_flag, create_parse_mkCreateBody, sqlInsert, hnotlong, hany, jsonToPyStr]
  · simp [create_flag, create_parse_mkCreateBody]
  · intro htable
    simp [create_flag, create_parse_mkCreateBody, sqlInsert, htable]

/-- Witness for C2 at concrete inputs: a duplicate insert into a store
already holding the name, a create-then-create pair, a failed
connection, and a missing table. -/
theorem c2_create_conflict_witness :
    (create_flag (some (mkCreateBody "dup" none)) ConnResult.ok
      ⟨true, [⟨"dup", true⟩]⟩).1.status = 409 ∧
    (create_flag (some (mkCreateBody "twice" (some true))) ConnResult.ok
      (create_flag (some (mkCreateBody "twice" (some true))) ConnResult.ok
        ⟨true, []⟩).2).1 =
      ⟨409, RespBody.errorBody ("A flag \x27" ++ "twice" ++ "\x27 já existe")⟩ ∧
    (create_flag (some (mkCreateBody "z" none)) (ConnResult.failure "timeout")
      ⟨true, []⟩).1 =
      ⟨500, RespBody.errorDetail "Erro interno no servidor ao criar a flag" "timeout"⟩ ∧
    (create_flag (some (mkCreateBody "y" none)) ConnResult.ok ⟨false, []⟩).1 =
      ⟨500, RespBody.errorDetail "Erro interno no servidor ao criar a flag"
        "relation flags does not exist"⟩ :=
  ⟨((c2_create_conflict "dup" none none ⟨true, [⟨"dup", true⟩]⟩ "m").1 rfl
      (by decide)).2 ⟨⟨"dup", true⟩, by simp, rfl⟩,
   (c2_create_conflict "twice" (some true) (some true) ⟨true, []⟩ "m").2.1 rfl
      (by decide) (by intro f hf; simp at hf),
   (c2_create_conflict "z" none none ⟨true, []⟩ "timeout").2.2.1,
   (c2_create_conflict "y" none none ⟨false, []⟩ "m").2.2.2 rfl⟩

/-! Helper lemma: once update_flag passes validation, no later branch
produces a 400. -/

theorem update_flag_status_of_doUpdate (name : String) (data : Option Json)
    (conn : ConnResult) (s : DbState) (b : Bool)
    (hparse : update_parse data = UpdateAction.doUpdate b) :
    (update_flag name data conn s).1.status ≠ 400 := by
  cases conn with
  | failure m => simp [update_flag, hparse]
  | ok =>
    cases hupd : sqlUpdate s name b with
    | ok p =>
      rcases p with ⟨s2, cnt⟩
      simp only [update_flag, hparse, hupd]
      split <;> simp
    | integrityError => simp [update_flag, hparse, hupd]
    | otherError m => simp [update_flag, hparse, hupd]

/-- C3 counterexample: the claim says that for EVERY request body the
update operation returns 400 exactly when the body is absent, lacks the
is_enabled field, or carries a non-boolean is_enabled.  The JSON body 5
(a bare number) lacks the is_enabled field, so the claim predicts 400;
but the handler evaluates the Python expression is_enabled not in data
on an integer, which raises TypeError before any branch is taken, and
the framework turns the escaped exception into a 500. -/
theorem c3_counterexample_numeric_body :
    updateBad (some (Json.num 5)) = true ∧
    (update_flag "any-flag" (some (Json.num 5)) ConnResult.ok ⟨true, []⟩).1 =
      ⟨500, RespBody.frameworkError "TypeError"⟩ ∧
    ¬ (update_flag "any-flag" (some (Json.num 5)) ConnResult.ok ⟨true, []⟩).1.status = 400 :=
  ⟨rfl, rfl, by decide⟩

/-- C3 (amended): for every request body that is absent or is a JSON
object, the update operation returns 400 if and only if the body is
absent, lacks the is_enabled field, or has an is_enabled that is not
strictly a boolean (for example the string true); and in that case no
store access happens: the response and the unchanged state are the same
for every connection outcome and store state.  (The bare-number body 5
of the counterexample instead raises an unhandled TypeError and yields
a framework 500.) -/
theorem c3_update_validation_object_bodies (name : String) (data : Option Json)
    (conn : ConnResult) (s : DbState)
    (hobj : data = none ∨ ∃ entries, data = some (Json.obj entries)) :
    ((update_flag name data conn s).1.status = 400 ↔ updateBad data = true) ∧
    (updateBad data = true →
      update_flag name data conn s =
        (⟨400, RespBody.errorBody "O campo \x27is_enabled\x27 (booleano) é obrigatório"⟩,
         s)) := by
  rcases hobj with h | ⟨entries, h⟩ <;> subst h
  · simp [update_flag, update_parse, updateBad]
  · cases hlook : pyLookup entries "is_enabled" with
    | none =>
      have hparse : update_parse (some (Json.obj entries)) = UpdateAction.reject400 := by
        simp [update_parse, pyContains, hlook]
      simp [update_flag, hparse, updateBad, hlook]
    | some v =>
      cases v with
      | bool bv =>
        have hparse : update_parse (some (Json.obj entries)) =
            UpdateAction.doUpdate bv := by
          simp [update_parse, pyContains, pyIndex, hlook]
        have hbad : updateBad (some (Json.obj entries)) = false := by
          simp [updateBad, hlook]
        refine ⟨?_, ?_⟩
        · constructor
          · intro h400
            exact absurd h400 (update_flag_status_of_doUpdate name _ conn s bv hparse)
          · intro hbadtrue
            rw [hbad] at hbadtrue
            exact Bool.noConfusion hbadtrue
        · intro hbadtrue
          rw [hbad] at hbadtrue
          exact Bool.noConfusion hbadtrue
      | null =>
        have hparse : update_parse (some (Json.obj entries)) = UpdateAction.reject400 := by
          simp [update_parse, pyContains, pyIndex, hlook]
        simp [update_flag, hparse, updateBad, hlook]
      | num m =>
        have hparse : update_parse (some (Json.obj entries)) = UpdateAction.reject400 := by
          simp [update_parse, pyContains, pyIndex, hlook]
        simp [update_flag, hparse, updateBad, hlook]
      | str t =>
        have hparse : update_parse (some (Json.obj entries)) = UpdateAction.reject400 := by
          simp [update_parse, pyContains, pyIndex, hlook]
        simp [update_flag, hparse, updateBad, hlook]
      | arr elems =>
        have hparse : update_parse (some (Json.obj entries)) = UpdateAction.reject400 := by
          simp [update_parse, pyContains, pyIndex, hlook]
        simp [update_flag, hparse, updateBad, hlook]
      | obj entries2 =>
        have hparse : update_parse (some (Json.obj entries)) = UpdateAction.reject400 := by
          simp [update_parse, pyContains, pyIndex, hlook]
        simp [update_flag, hparse, updateBad, hlook]

/-- Witness for C3 (amended) at the concrete input from the
specification: a PUT body whose is_enabled is the string true. -/
theorem c3_update_validation_witness :
    ((update_flag "w" (some (Json.obj [("is_enabled", Json.str "true")]))
        ConnResult.ok ⟨true, []⟩).1.status = 400 ↔
      updateBad (some (Json.obj [("is_enabled", Json.str "true")])) = true) ∧
    (updateBad (some (Json.obj [("is_enabled", Json.str "true")])) = true →
      update_flag "w" (some (Json.obj [("is_enabled", Json.str "true")]))
        ConnResult.ok ⟨true, []⟩ =
        (⟨400, RespBody.errorBody "O campo \x27is_enabled\x27 (booleano) é obrigatório"⟩,
         ⟨true, []⟩)) :=
  c3_update_validation_object_bodies "w"
    (some (Json.obj [("is_enabled", Json.str "true")])) ConnResult.ok ⟨true, []⟩
    (Or.inr ⟨[("is_enabled", Json.str "true")], rfl⟩)

/-- C4: for every name that does not exist in the store, the update
operation (once its body passes validation) returns 404 because the
UPDATE statement affects zero rows, and leaves the store state
unchanged: no row is created and no existing row is modified. -/
theorem c4_update_nonexistent (name : String) (data : Option Json) (b : Bool)
    (s : DbState) (hparse : update_parse data = UpdateAction.doUpdate b)
    (htable : s.tableExists = true) (hfresh : ∀ f ∈ s.flags, f.name ≠ name) :
    update_flag name data ConnResult.ok s =
      (⟨404, RespBody.errorBody "Flag não encontrada"⟩, s) := by
  have hfilter : s.flags.filter (fun f => f.name == name) = [] := by
    rw [List.filter_eq_nil_iff]
    intro f hf
    simp [hfresh f hf]
  simp [update_flag, hparse, sqlUpdate, htable, hfilter]

/-- Witness for C4 at a concrete input: updating ghost in a store that
only holds other, with a well-formed boolean body. -/
theorem c4_update_nonexistent_witness :
    update_flag "ghost" (some (Json.obj [("is_enabled", Json.bool true)]))
      ConnResult.ok ⟨true, [⟨"other", false⟩]⟩ =
      (⟨404, RespBody.errorBody "Flag não encontrada"⟩, ⟨true, [⟨"other", false⟩]⟩) :=
  c4_update_nonexistent "ghost" (some (Json.obj [("is_enabled", Json.bool true)]))
    true ⟨true, [⟨"other", false⟩]⟩ rfl rfl
    (by intro f hf; simp at hf; simp [hf])

/-- C5: for every store state, list() returns the name and is_enabled
of every flag (a permutation of the rows projected to those two
columns), sorted lexicographically by name, and returns the empty
sequence when no flags exist; concretely, after creating b and then a
in an empty store it returns the pairs for a and b in that order. -/
theorem c5_list_sorted :
    (∀ s : DbState, s.tableExists = true →
      ∃ L, get_flags ConnResult.ok s = ⟨200, RespBody.flagList L⟩ ∧
        List.Perm L (s.flags.map (fun f => (f.name, f.is_enabled))) ∧
        List.Pairwise (fun p q => strLe p.1 q.1 = true) L ∧
        (s.flags = [] → L = [])) ∧
    get_flags ConnResult.ok
      (create_flag (some (mkCreateBody "a" none)) ConnResult.ok
        (create_flag (some (mkCreateBody "b" none)) ConnResult.ok ⟨true, []⟩).2).2 =
      ⟨200, RespBody.flagList [("a", false), ("b", false)]⟩ := by
  constructor
  · intro s htable
    refine ⟨(sortFlags s.flags).map (fun f => (f.name, f.is_enabled)), ?_, ?_, ?_, ?_⟩
    · simp [get_flags, sqlSelectAll, htable]
    · exact List.Perm.map _ (sortFlags_perm s.flags)
    · exact List.Pairwise.map _ (fun a b hab => hab) (pairwise_sortFlags s.flags)
    · intro hnil
      simp [hnil, sortFlags]
  · decide

/-- Witness for C5 at a concrete input: a store holding b and a in
insertion order. -/
theorem c5_list_sorted_witness :
    ∃ L, get_flags ConnResult.ok ⟨true, [⟨"b", true⟩, ⟨"a", false⟩]⟩ =
        ⟨200, RespBody.flagList L⟩ ∧
      List.Perm L ([⟨"b", true⟩, ⟨"a", false⟩].map
        (fun f : Flag => (f.name, f.is_enabled))) ∧
      List.Pairwise (fun p q => strLe p.1 q.1 = true) L ∧
      (([⟨"b", true⟩, ⟨"a", false⟩] : List Flag) = [] → L = []) :=
  c5_list_sorted.1 ⟨true, [⟨"b", true⟩, ⟨"a", false⟩]⟩ rfl

/-- C6: password resolution returns the directly configured password
when a (nonempty) one is present; otherwise, when a secret-parameter
identifier is configured, it returns the value looked up (with
decryption) in the secret store under the configured region, the fixed
default region sa-east-1 standing in when none is configured; otherwise
it returns absent, and the connection builder then fails with a
configuration error instead of opening a connection. -/
theorem c6_password_resolution (env : Env) (ssm : String → String → String) :
    (∀ p, env.DB_PASSWORD = some p → p ≠ "" →
      resolve_db_password env ssm = some p) ∧
    (truthyOpt env.DB_PASSWORD = false →
      ∀ pid, env.DB_PASSWORD_SSM_PARAM = some pid → pid ≠ "" →
        resolve_db_password env ssm = some (ssm pid (resolveRegion env))) ∧
    (∀ r, env.AWS_REGION = some r → r ≠ "" → resolveRegion env = r) ∧
    (env.AWS_REGION = none → env.AWS_DEFAULT_REGION = none →
      resolveRegion env = "sa-east-1") ∧
    (truthyOpt env.DB_PASSWORD = false → truthyOpt env.DB_PASSWORD_SSM_PARAM = false →
      resolve_db_password env ssm = none ∧
      get_db_connection env ssm = Except.error
        "Senha do DB não resolvida. Defina DB_PASSWORD ou DB_PASSWORD_SSM_PARAM (+ AWS_REGION).") := by
  refine ⟨?_, ?_, ?_, ?_, ?_⟩
  · intro p hp hne
    have ht : truthyOpt (some p) = true := by simp [truthyOpt, hne]
    simp [resolve_db_password, hp, ht]
  · intro htr pid hpid hne
    have ht2 : truthyOpt (some pid) = true := by simp [truthyOpt, hne]
    simp [resolve_db_password, htr, hpid, ht2]
  · intro r hr hne
    simp [resolveRegion, strOrElse, hr, hne]
  · intro h1 h2
    simp [resolveRegion, strOrElse, h1, h2]
  · intro htr hts
    refine ⟨?_, ?_⟩
    · simp [resolve_db_password, htr, hts]
    · simp [get_db_connection, resolve_db_password, htr, hts]

/-- Witness for C6 at concrete environments: a direct password, an
SSM-only configuration with an explicit region, and an empty
configuration where the connection builder fails. -/
theorem c6_password_resolution_witness :
    resolve_db_password ⟨some "direct-pw", some "param", none, none⟩
      (fun pid region => pid ++ "@" ++ region) = some "direct-pw" ∧
    resolve_db_password ⟨none, some "db-pass", some "us-east-1", none⟩
      (fun pid region => pid ++ "@" ++ region) =
      some ((fun pid region => pid ++ "@" ++ region) "db-pass"
        (resolveRegion ⟨none, some "db-pass", some "us-east-1", none⟩)) ∧
    resolveRegion ⟨none, some "db-pass", some "us-east-1", none⟩ = "us-east-1" ∧
    resolveRegion ⟨none, none, none, none⟩ = "sa-east-1" ∧
    resolve_db_password ⟨none, none, none, none⟩
      (fun pid region => pid ++ "@" ++ region) = none ∧
    get_db_connection ⟨none, none, none, none⟩
      (fun pid region => pid ++ "@" ++ region) = Except.error
      "Senha do DB não resolvida. Defina DB_PASSWORD ou DB_PASSWORD_SSM_PARAM (+ AWS_REGION)." :=
  ⟨(c6_password_resolution ⟨some "direct-pw", some "param", none, none⟩
      (fun pid region => pid ++ "@" ++ region)).1 "direct-pw" rfl (by decide),
   (c6_password_resolution ⟨none, some "db-pass", some "us-east-1", none⟩
      (fun pid region => pid ++ "@" ++ region)).2.1 rfl "db-pass" rfl (by decide),
   (c6_password_resolution ⟨none, some "db-pass", some "us-east-1", none⟩
      (fun pid region => pid ++ "@" ++ region)).2.2.1 "us-east-1" rfl (by decide),
   (c6_password_resolution ⟨none, none, none, none⟩
      (fun pid region => pid ++ "@" ++ region)).2.2.2.1 rfl rfl,
   ((c6_password_resolution ⟨none, none, none, none⟩
      (fun pid region => pid ++ "@" ++ region)).2.2.2.2 rfl rfl).1,
   ((c6_password_resolution ⟨none, none, none, none⟩
      (fun pid region => pid ++ "@" ++ region)).2.2.2.2 rfl rfl).2⟩

/-- C7: the schema bootstrap is idempotent (running it when the flags
table already exists changes nothing, and a second run after a
successful run changes nothing) and never escalates a failure to its
caller: a connection error and any other exception during bootstrap
are returned as a log entry with the state unchanged, never as an
escaping exception (the model is a total function into state and
log). -/
theorem c7_init_db_swallows (s : DbState) (m : String) :
    (s.tableExists = true → init_db (Except.ok ()) s = (s, InitLog.success)) ∧
    (init_db (Except.error (DbFailure.operationalError m)) s =
      (s, InitLog.connectionError m)) ∧
    (init_db (Except.error (DbFailure.otherException m)) s =
      (s, InitLog.unexpectedError m)) ∧
    (init_db (Except.ok ()) (init_db (Except.ok ()) s).1 =
      ((init_db (Except.ok ()) s).1, InitLog.success)) := by
  refine ⟨?_, rfl, rfl, ?_⟩
  · intro ht
    simp [init_db, createTableIfNotExists, ht]
  · cases hte : s.tableExists <;> simp [init_db, createTableIfNotExists, hte]

/-- Witness for C7 at concrete inputs: an existing table is left
unchanged, and a connection failure is swallowed into a log entry. -/
theorem c7_init_db_swallows_witness :
    init_db (Except.ok ()) ⟨true, [⟨"a", true⟩]⟩ =
      (⟨true, [⟨"a", true⟩]⟩, InitLog.success) ∧
    init_db (Except.error (DbFailure.operationalError "connection refused"))
      ⟨false, []⟩ = (⟨false, []⟩, InitLog.connectionError "connection refused") :=
  ⟨(c7_init_db_swallows ⟨true, [⟨"a", true⟩]⟩ "m").1 rfl,
   (c7_init_db_swallows ⟨false, []⟩ "connection refused").2.1⟩

/-- C8: the create operation checks only the presence of the name key,
not its type or content: the body with name equal to the empty string
is not rejected with 400 and proceeds to an insert attempt with that
empty name (and the default false for is_enabled); more generally, any
object body holding a name key passes validation. -/
theorem c8_create_presence_only :
    create_parse (some (Json.obj [("name", Json.str "")])) =
      CreateAction.insert (Json.str "") (Json.bool false) ∧
    (∀ entries nv, pyLookup entries "name" = some nv →
      create_parse (some (Json.obj entries)) ≠ CreateAction.reject400) := by
  refine ⟨rfl, ?_⟩
  intro entries nv hlook
  cases entries with
  | nil => simp [pyLookup] at hlook
  | cons kv kvs =>
    simp [create_parse, pyTruthy, pyContains, pyIndex, pyGet, hlook]

/-- Witness for C8 at a concrete input: even a null name passes the
presence-only validation. -/
theorem c8_create_presence_only_witness :
    create_parse (some (Json.obj [("name", Json.null)])) ≠ CreateAction.reject400 :=
  c8_create_presence_only.2 [("name", Json.null)] Json.null rfl

/-- C9: the create operation never validates the type of is_enabled:
for every object body containing name, whatever JSON value sits under
is_enabled (boolean or not, including null) is forwarded verbatim into
the insert attempt; by contrast the update operation rejects every
non-boolean is_enabled with 400. -/
theorem c9_create_enabled_unchecked :
    (∀ entries nv v, pyLookup entries "name" = some nv →
      pyLookup entries "is_enabled" = some v →
      create_parse (some (Json.obj entries)) = CreateAction.insert nv v) ∧
    (∀ entries v, pyLookup entries "is_enabled" = some v → isBool v = false →
      update_parse (some (Json.obj entries)) = UpdateAction.reject400) := by
  constructor
  · intro entries nv v hname hen
    cases entries with
    | nil => simp [pyLookup] at hname
    | cons kv kvs =>
      simp [create_parse, pyTruthy, pyContains, pyIndex, pyGet, hname, hen]
  · intro entries v hen hnb
    cases v with
    | bool bv => simp [isBool] at hnb
    | null => simp [update_parse, pyContains, pyIndex, hen]
    | num m => simp [update_parse, pyContains, pyIndex, hen]
    | str t => simp [update_parse, pyContains, pyIndex, hen]
    | arr elems => simp [update_parse, pyContains, pyIndex, hen]
    | obj es => simp [update_parse, pyContains, pyIndex, hen]

/-- Witness for C9 at concrete inputs: a null is_enabled is forwarded
by create, while update rejects the same value with 400. -/
theorem c9_create_enabled_unchecked_witness :
    create_parse (some (Json.obj [("name", Json.str "x"), ("is_enabled", Json.null)])) =
      CreateAction.insert (Json.str "x") Json.null ∧
    update_parse (some (Json.obj [("is_enabled", Json.null)])) =
      UpdateAction.reject400 :=
  ⟨c9_create_enabled_unchecked.1 [("name", Json.str "x"), ("is_enabled", Json.null)]
      (Json.str "x") Json.null rfl rfl,
   c9_create_enabled_unchecked.2 [("is_enabled", Json.null)] Json.null rfl rfl⟩

/-- C10: password resolution treats an empty-string directly configured
password as absent: with DB_PASSWORD set to the empty string,
resolution behaves exactly as if DB_PASSWORD were unset, falling
through to the secret-parameter lookup when an identifier is
configured, and to absent when none is. -/
theorem c10_empty_password_absent (env : Env) (ssm : String → String → String)
    (hempty : env.DB_PASSWORD = some "") :
    resolve_db_password env ssm =
      resolve_db_password ⟨none, env.DB_PASSWORD_SSM_PARAM, env.AWS_REGION,
        env.AWS_DEFAULT_REGION⟩ ssm ∧
    (truthyOpt env.DB_PASSWORD_SSM_PARAM = false →
      resolve_db_password env ssm = none) ∧
    (∀ pid, env.DB_PASSWORD_SSM_PARAM = some pid → pid ≠ "" →
      resolve_db_password env ssm = some (ssm pid (resolveRegion env))) := by
  have ht : truthyOpt env.DB_PASSWORD = false := by
    rw [hempty]; simp [truthyOpt]
  refine ⟨?_, ?_, ?_⟩
  · have hnone : truthyOpt none = false := rfl
    simp [resolve_db_password, ht, hnone, resolveRegion]
  · intro hts
    simp [resolve_db_password, ht, hts]
  · intro pid hpid hne
    have ht2 : truthyOpt (some pid) = true := by simp [truthyOpt, hne]
    simp [resolve_db_password, ht, hpid, ht2]

/-- Witness for C10 at concrete environments: an empty DB_PASSWORD with
a secret parameter configured resolves through the store, and with
nothing else configured resolves to absent. -/
theorem c10_empty_password_absent_witness :
    resolve_db_password ⟨some "", some "secret-param", none, some "eu-west-1"⟩
      (fun pid region => pid ++ "@" ++ region) =
      some ((fun pid region => pid ++ "@" ++ region) "secret-param"
        (resolveRegion ⟨some "", some "secret-param", none, some "eu-west-1"⟩)) ∧
    resolve_db_password ⟨some "", none, none, none⟩
      (fun pid region => pid ++ "@" ++ region) = none :=
  ⟨(c10_empty_password_absent ⟨some "", some "secret-param", none, some "eu-west-1"⟩
      (fun pid region => pid ++ "@" ++ region) rfl).2.2 "secret-param" rfl (by decide),
   (c10_empty_password_absent ⟨some "", none, none, none⟩
      (fun pid region => pid ++ "@" ++ region) rfl).2.1 rfl⟩

end FlagsApp
